import Mathlib

/-!
Verification development for the landfill simulation script (src/app5.py).

The computational core of the script is:
  x = np.linspace(0, 5, 50)
  t = np.linspace(0.1, 40, 80)
  X, T = np.meshgrid(x, t)
  C_leachate = np.exp(-((X - velocity_leachate * T) ** 2) / (4 * T)) * np.exp(-k * 10)
  C_gas = np.exp(-diffusion_gas * T / 10) * np.cos(np.pi * X / 20) ** 2
  frames: for i in range(1, len(t), 2): append frame with C_leachate[:i, :], C_gas[:i, :]

We embed this over the reals: the numpy broadcast expressions become pointwise
kernels evaluated on the meshgrid, and the frame loop becomes a list built from
a model of Python's `range(start, stop, step)`.
-/

open Real

/-- `np.linspace a b n` evaluated at sample index `i`:
the `i`-th of `n` evenly spaced points from `a` to `b` inclusive. -/
noncomputable def linspace (a b : ℝ) (n : ℕ) (i : ℕ) : ℝ :=
  a + (i : ℝ) * ((b - a) / ((n : ℝ) - 1))

/-- `x = np.linspace(0, 5, 50)` — the distance grid (metres). -/
noncomputable def x_grid (j : Fin 50) : ℝ := linspace 0 5 50 j

/-- `t = np.linspace(0.1, 40, 80)` — the time grid (days). -/
noncomputable def t_grid (i : Fin 80) : ℝ := linspace 0.1 40 80 i

/-- `X, T = np.meshgrid(x, t)` — first mesh array: row `i`, column `j` holds `x[j]`. -/
noncomputable def X (i : Fin 80) (j : Fin 50) : ℝ := x_grid j

/-- `X, T = np.meshgrid(x, t)` — second mesh array: row `i`, column `j` holds `t[i]`. -/
noncomputable def T (i : Fin 80) (j : Fin 50) : ℝ := t_grid i

/-- The scalar expression broadcast by
`np.exp(-((X - v * T) ** 2) / (4 * T)) * np.exp(-k * 10)`. -/
noncomputable def leachateKernel (v kL x t : ℝ) : ℝ :=
  Real.exp (-(x - v * t) ^ 2 / (4 * t)) * Real.exp (-kL * 10)

/-- The scalar expression broadcast by
`np.exp(-d * T / 10) * np.cos(np.pi * X / 20) ** 2`. -/
noncomputable def gasKernel (d x t : ℝ) : ℝ :=
  Real.exp (-d * t / 10) * Real.cos (Real.pi * x / 20) ^ 2

/-- `C_leachate` — the leachate concentration field on the meshgrid. -/
noncomputable def C_leachate (v kL : ℝ) (i : Fin 80) (j : Fin 50) : ℝ :=
  leachateKernel v kL (X i j) (T i j)

/-- `C_gas` — the gas concentration field on the meshgrid. -/
noncomputable def C_gas (d : ℝ) (i : Fin 80) (j : Fin 50) : ℝ :=
  gasKernel d (X i j) (T i j)

/-- The time grid as a list, used for `len(t)` and `t[i]` in the frame loop. -/
noncomputable def t_list : List ℝ := (List.range 80).map (fun i => linspace 0.1 40 80 i)

/-- `C_leachate` as a list of rows (row `i` is time index `i`), so that the
numpy row slice `C_leachate[:i, :]` becomes `List.take i`. -/
noncomputable def leachateRows (v kL : ℝ) : List (List ℝ) :=
  (List.finRange 80).map (fun i => (List.finRange 50).map (fun j => C_leachate v kL i j))

/-- `C_gas` as a list of rows. -/
noncomputable def gasRows (d : ℝ) : List (List ℝ) :=
  (List.finRange 80).map (fun i => (List.finRange 50).map (fun j => C_gas d i j))

/-- Python `range(start, stop, step)` for positive `step`, by fuel (the fuel
`stop` suffices since `start` grows by at least one per step). -/
def pyRangeFuel : ℕ → ℕ → ℕ → ℕ → List ℕ
  | 0, _, _, _ => []
  | fuel + 1, start, stop, step =>
      if start < stop then start :: pyRangeFuel fuel (start + step) stop step else []

/-- Python `range(start, stop, step)` for positive `step`. -/
def pyRange (start stop step : ℕ) : List ℕ :=
  pyRangeFuel stop start stop step

/-- One animation frame: the two row-sliced heatmaps plus the time value `t[i]`
whose rounded form labels the frame (the string formatting itself is
presentation-layer and not modelled). -/
structure Frame where
  leachateSlice : List (List ℝ)
  gasSlice : List (List ℝ)
  timeVal : ℝ

/-- Default frame used by `List.getD` when indexing the frame list. -/
def emptyFrame : Frame := Frame.mk [] [] 0

/-- The frame loop:
`for i in range(1, len(t), 2): frames.append(Frame(C_leachate[:i,:], C_gas[:i,:], t[i]))`. -/
noncomputable def frames (v kL d : ℝ) : List Frame :=
  (pyRange 1 t_list.length 2).map (fun i =>
    Frame.mk ((leachateRows v kL).take i) ((gasRows d).take i) (t_list.getD i 0))

/-! ### Basic grid facts -/

lemma x_grid_nonneg (j : Fin 50) : 0 ≤ x_grid j := by
  unfold x_grid linspace
  positivity

lemma x_grid_le_five (j : Fin 50) : x_grid j ≤ 5 := by
  unfold x_grid linspace
  have hj : (j : ℝ) ≤ 49 := by
    have := j.isLt
    exact_mod_cast Nat.le_of_lt_succ this
  nlinarith [hj]

lemma t_grid_pos (i : Fin 80) : 0 < t_grid i := by
  unfold t_grid linspace
  have hi : (0 : ℝ) ≤ (i : ℝ) := Nat.cast_nonneg _
  nlinarith [hi]

lemma t_grid_strictMono {i1 i2 : Fin 80} (h : i1 < i2) : t_grid i1 < t_grid i2 := by
  unfold t_grid linspace
  have hc : (0 : ℝ) < (40 - 0.1) / ((80 : ℝ) - 1) := by norm_num
  have hv : (i1 : ℝ) < (i2 : ℝ) := by exact_mod_cast h
  nlinarith [hc, hv]

lemma t_list_length : t_list.length = 80 := by
  simp [t_list]

lemma leachateRows_length (v kL : ℝ) : (leachateRows v kL).length = 80 := by
  simp [leachateRows]

lemma gasRows_length (d : ℝ) : (gasRows d).length = 80 := by
  simp [gasRows]

/-! ### Frame list structure -/

/-- `range(1, 80, 2)` enumerates the 40 odd numbers below 80. -/
lemma pyRange_one_eighty_two : pyRange 1 80 2 = (List.range 40).map (fun k => 2 * k + 1) := by
  decide

lemma frames_eq (v kL d : ℝ) :
    frames v kL d = (List.range 40).map (fun k =>
      Frame.mk ((leachateRows v kL).take (2 * k + 1)) ((gasRows d).take (2 * k + 1))
        (t_list.getD (2 * k + 1) 0)) := by
  rw [frames, t_list_length, pyRange_one_eighty_two, List.map_map]
  rfl

lemma frames_length_aux (v kL d : ℝ) : (frames v kL d).length = 40 := by
  rw [frames_eq]
  simp

lemma frames_getD (v kL d : ℝ) (k : ℕ) (hk : k < 40) :
    (frames v kL d).getD k emptyFrame =
      Frame.mk ((leachateRows v kL).take (2 * k + 1)) ((gasRows d).take (2 * k + 1))
        (t_list.getD (2 * k + 1) 0) := by
  rw [frames_eq]
  have hlen : k < ((List.range 40).map (fun k =>
      Frame.mk ((leachateRows v kL).take (2 * k + 1)) ((gasRows d).take (2 * k + 1))
        (t_list.getD (2 * k + 1) 0))).length := by
    simpa using hk
  rw [List.getD_eq_getElem _ _ hlen, List.getElem_map]
  simp

/-! ### Field bounds -/

lemma cos_factor_pos (j : Fin 50) : 0 < Real.cos (Real.pi * x_grid j / 20) ^ 2 := by
  have hx0 := x_grid_nonneg j
  have hx5 := x_grid_le_five j
  have hpi := Real.pi_pos
  have hmem : Real.pi * x_grid j / 20 ∈ Set.Ioo (-(Real.pi / 2)) (Real.pi / 2) := by
    constructor
    · nlinarith
    · nlinarith
  have hc := Real.cos_pos_of_mem_Ioo hmem
  positivity

lemma leachate_lt_one (v kL : ℝ) (hk : 0 < kL) (i : Fin 80) (j : Fin 50) :
    C_leachate v kL i j < 1 := by
  unfold C_leachate leachateKernel X T
  have ht := t_grid_pos i
  have h1 : Real.exp (-(x_grid j - v * t_grid i) ^ 2 / (4 * t_grid i)) ≤ 1 := by
    rw [show (1 : ℝ) = Real.exp 0 by rw [Real.exp_zero]]
    apply Real.exp_le_exp.mpr
    have hsq : 0 ≤ (x_grid j - v * t_grid i) ^ 2 := sq_nonneg _
    have h4t : 0 < 4 * t_grid i := by linarith
    exact div_nonpos_of_nonpos_of_nonneg (by linarith) (le_of_lt h4t)
  have h2 : Real.exp (-kL * 10) < 1 := by
    rw [show (1 : ℝ) = Real.exp 0 by rw [Real.exp_zero]]
    apply Real.exp_lt_exp.mpr
    nlinarith
  calc Real.exp (-(x_grid j - v * t_grid i) ^ 2 / (4 * t_grid i)) * Real.exp (-kL * 10)
      ≤ 1 * Real.exp (-kL * 10) :=
        mul_le_mul_of_nonneg_right h1 (le_of_lt (Real.exp_pos _))
    _ = Real.exp (-kL * 10) := one_mul _
    _ < 1 := h2

lemma gas_lt_one (d : ℝ) (hd : 0 < d) (i : Fin 80) (j : Fin 50) :
    C_gas d i j < 1 := by
  unfold C_gas gasKernel X T
  have ht := t_grid_pos i
  have h1 : Real.exp (-d * t_grid i / 10) < 1 := by
    rw [show (1 : ℝ) = Real.exp 0 by rw [Real.exp_zero]]
    apply Real.exp_lt_exp.mpr
    have : 0 < d * t_grid i := mul_pos hd ht
    nlinarith
  have h2 : Real.cos (Real.pi * x_grid j / 20) ^ 2 ≤ 1 := Real.cos_sq_le_one _
  have h3 : 0 ≤ Real.cos (Real.pi * x_grid j / 20) ^ 2 := sq_nonneg _
  calc Real.exp (-d * t_grid i / 10) * Real.cos (Real.pi * x_grid j / 20) ^ 2
      ≤ Real.exp (-d * t_grid i / 10) * 1 :=
        mul_le_mul_of_nonneg_left h2 (le_of_lt (Real.exp_pos _))
    _ = Real.exp (-d * t_grid i / 10) := mul_one _
    _ < 1 := h1

/-! ### Claim theorems -/

/-- C1: for every valid parameter tuple (velocity > 0, liner permeability > 0)
and every grid point `(x_grid j, t_grid i)` with the time grid starting at 0.1,
the leachate field value equals
`exp(-((x - velocity*t)^2) / (4*t)) * exp(-linerPermeability*10)`. -/
theorem leachate_formula (v kL : ℝ) (hv : 0 < v) (hk : 0 < kL) (i : Fin 80) (j : Fin 50) :
    C_leachate v kL i j =
      Real.exp (-(x_grid j - v * t_grid i) ^ 2 / (4 * t_grid i)) * Real.exp (-kL * 10) := rfl

theorem leachate_formula_witness :
    (0 : ℝ) < 2 ∧ (0 : ℝ) < 1 / 10 ^ 7 ∧
      C_leachate 2 (1 / 10 ^ 7) 0 0 =
        Real.exp (-(x_grid 0 - 2 * t_grid 0) ^ 2 / (4 * t_grid 0)) *
          Real.exp (-(1 / 10 ^ 7) * 10) :=
  ⟨by norm_num, by norm_num, leachate_formula 2 (1 / 10 ^ 7) (by norm_num) (by norm_num) 0 0⟩

/-- C2: for every valid parameter tuple (diffusion rate > 0) and every grid
point, the gas field value equals `exp(-diffusionRate*t/10) * cos(pi*x/20)^2`. -/
theorem gas_formula (d : ℝ) (hd : 0 < d) (i : Fin 80) (j : Fin 50) :
    C_gas d i j =
      Real.exp (-d * t_grid i / 10) * Real.cos (Real.pi * x_grid j / 20) ^ 2 := rfl

theorem gas_formula_witness :
    (0 : ℝ) < 3 / 10 ∧
      C_gas (3 / 10) 0 0 =
        Real.exp (-(3 / 10) * t_grid 0 / 10) * Real.cos (Real.pi * x_grid 0 / 20) ^ 2 :=
  ⟨by norm_num, gas_formula (3 / 10) (by norm_num) 0 0⟩

/-- C4: for every diffusion rate > 0 and every fixed distance index `j`, the
gas field is strictly decreasing along the time axis: later time index means
strictly smaller value. -/
theorem gas_strict_decay (d : ℝ) (hd : 0 < d) (j : Fin 50) (i1 i2 : Fin 80) (h : i1 < i2) :
    C_gas d i2 j < C_gas d i1 j := by
  unfold C_gas gasKernel X T
  have hcos := cos_factor_pos j
  have ht := t_grid_strictMono h
  have hexp : Real.exp (-d * t_grid i2 / 10) < Real.exp (-d * t_grid i1 / 10) := by
    apply Real.exp_lt_exp.mpr
    nlinarith
  exact mul_lt_mul_of_pos_right hexp hcos

theorem gas_strict_decay_witness : C_gas 1 1 0 < C_gas 1 0 0 :=
  gas_strict_decay 1 (by norm_num) 0 0 1 (by decide)

/-- C5: changing only the liner permeability from `1e-7` to `1e-10` multiplies
every leachate field entry by the single factor `exp(-10*(1e-10 - 1e-7))`,
uniformly across the grid. -/
theorem liner_pure_attenuation (v : ℝ) (i : Fin 80) (j : Fin 50) :
    C_leachate v (1 / 10 ^ 10) i j =
      Real.exp (-10 * (1 / 10 ^ 10 - 1 / 10 ^ 7)) * C_leachate v (1 / 10 ^ 7) i j := by
  have h : Real.exp (-10 * ((1 : ℝ) / 10 ^ 10 - 1 / 10 ^ 7)) * Real.exp (-(1 / 10 ^ 7) * 10)
      = Real.exp (-(1 / 10 ^ 10) * 10) := by
    rw [← Real.exp_add]
    norm_num
  unfold C_leachate leachateKernel
  rw [← h]
  ring

/-- C9: in the concrete scenario (velocity 2.0, liner permeability 1e-9), the
leachate field at grid point `(x = 0, t = 0.1)` (indices `i = 0`, `j = 0`)
equals `exp(-(0 - 2*0.1)^2/(4*0.1)) * exp(-1e-9*10)`, i.e.
`exp(-0.1) * exp(-1e-8)`. -/
theorem leachate_concrete_scenario :
    C_leachate 2 (1 / 10 ^ 9) 0 0 =
        Real.exp (-(0 - 2 * (1 / 10)) ^ 2 / (4 * (1 / 10))) * Real.exp (-(1 / 10 ^ 9) * 10) ∧
      C_leachate 2 (1 / 10 ^ 9) 0 0 = Real.exp (-(1 / 10)) * Real.exp (-(1 / 10 ^ 8)) := by
  have hx : x_grid 0 = 0 := by
    unfold x_grid linspace
    norm_num
  have ht : t_grid 0 = 1 / 10 := by
    unfold t_grid linspace
    norm_num
  unfold C_leachate leachateKernel X T
  rw [hx, ht]
  constructor
  · norm_num
  · congr 1
    · congr 1
      norm_num
    · congr 1
      norm_num

/-- C3 counterexample: the frame list does not have `floor((len(t)-1)/2) = 39`
entries — Python `range(1, 80, 2)` yields 40 indices, so there are 40 frames. -/
theorem frames_length_not_thirtynine :
    ¬ ((frames 2 (1 / 10 ^ 7) (3 / 10)).length = (80 - 1) / 2) := by
  rw [frames_length_aux]
  decide

/-- C3 amended: the frame list has exactly `ceil((len(t)-1)/2) = 40` entries
for every parameter choice. -/
theorem frames_length_forty (v kL d : ℝ) : (frames v kL d).length = 40 :=
  frames_length_aux v kL d

/-- C6: the `k`-th frame (0-indexed, `k < 40`) holds the row-prefix `[0, 1+2k)`
of both fields: its row-count is exactly `1 + 2k`, both slices are prefixes of
the full fields, and consecutive frames are strictly nested with strictly
increasing row-count. -/
theorem frame_prefix_structure (v kL d : ℝ) (k : ℕ) (hk : k < 40) :
    ((frames v kL d).getD k emptyFrame).leachateSlice.length = 1 + 2 * k ∧
    ((frames v kL d).getD k emptyFrame).gasSlice.length = 1 + 2 * k ∧
    ((frames v kL d).getD k emptyFrame).leachateSlice <+: leachateRows v kL ∧
    ((frames v kL d).getD k emptyFrame).gasSlice <+: gasRows d ∧
    (k + 1 < 40 →
      ((frames v kL d).getD k emptyFrame).leachateSlice <+:
          ((frames v kL d).getD (k + 1) emptyFrame).leachateSlice ∧
        ((frames v kL d).getD k emptyFrame).gasSlice <+:
          ((frames v kL d).getD (k + 1) emptyFrame).gasSlice ∧
        ((frames v kL d).getD k emptyFrame).leachateSlice.length <
          ((frames v kL d).getD (k + 1) emptyFrame).leachateSlice.length) := by
  rw [frames_getD v kL d k hk]
  have hL : ((leachateRows v kL).take (2 * k + 1)).length = 1 + 2 * k := by
    rw [List.length_take, leachateRows_length]
    omega
  have hG : ((gasRows d).take (2 * k + 1)).length = 1 + 2 * k := by
    rw [List.length_take, gasRows_length]
    omega
  refine ⟨hL, hG, List.take_prefix _ _, List.take_prefix _ _, fun hk1 => ?_⟩
  rw [frames_getD v kL d (k + 1) hk1]
  have hnestL : ((leachateRows v kL).take (2 * k + 1)) <+:
      ((leachateRows v kL).take (2 * (k + 1) + 1)) := by
    have h := List.take_prefix (2 * k + 1) ((leachateRows v kL).take (2 * (k + 1) + 1))
    rwa [List.take_take, min_eq_left (by omega)] at h
  have hnestG : ((gasRows d).take (2 * k + 1)) <+: ((gasRows d).take (2 * (k + 1) + 1)) := by
    have h := List.take_prefix (2 * k + 1) ((gasRows d).take (2 * (k + 1) + 1))
    rwa [List.take_take, min_eq_left (by omega)] at h
  refine ⟨hnestL, hnestG, ?_⟩
  have hL1 : ((leachateRows v kL).take (2 * (k + 1) + 1)).length = 1 + 2 * (k + 1) := by
    rw [List.length_take, leachateRows_length]
    omega
  rw [hL, hL1]
  omega

theorem frame_prefix_structure_witness :
    (0 : ℕ) < 40 ∧
      ((frames 2 (1 / 10 ^ 7) (3 / 10)).getD 0 emptyFrame).leachateSlice.length = 1 + 2 * 0 :=
  ⟨by norm_num, (frame_prefix_structure 2 (1 / 10 ^ 7) (3 / 10) 0 (by norm_num)).1⟩

/-- C10: no animation frame contains the complete field: every frame's
row-count is strictly below the 80 rows of the full fields, and the largest
frame (index 39) has exactly 79 rows. -/
theorem frames_never_complete (v kL d : ℝ) (k : ℕ) (hk : k < (frames v kL d).length) :
    ((frames v kL d).getD k emptyFrame).leachateSlice.length < 80 ∧
    ((frames v kL d).getD k emptyFrame).gasSlice.length < 80 ∧
    (leachateRows v kL).length = 80 ∧ (gasRows d).length = 80 ∧
    ((frames v kL d).getD 39 emptyFrame).leachateSlice.length = 79 := by
  rw [frames_length_aux] at hk
  rw [frames_getD v kL d k hk, frames_getD v kL d 39 (by norm_num)]
  have hL : ((leachateRows v kL).take (2 * k + 1)).length = 2 * k + 1 := by
    rw [List.length_take, leachateRows_length]
    omega
  have hG : ((gasRows d).take (2 * k + 1)).length = 2 * k + 1 := by
    rw [List.length_take, gasRows_length]
    omega
  have hTop : ((leachateRows v kL).take (2 * 39 + 1)).length = 79 := by
    rw [List.length_take, leachateRows_length]
    omega
  refine ⟨?_, ?_, leachateRows_length v kL, gasRows_length d, hTop⟩
  · rw [hL]
    omega
  · rw [hG]
    omega

theorem frames_never_complete_witness :
    0 < (frames 2 (1 / 10 ^ 7) (3 / 10)).length ∧
      ((frames 2 (1 / 10 ^ 7) (3 / 10)).getD 0 emptyFrame).leachateSlice.length < 80 :=
  ⟨by rw [frames_length_aux]; norm_num,
   (frames_never_complete 2 (1 / 10 ^ 7) (3 / 10) 0 (by rw [frames_length_aux]; norm_num)).1⟩

/-- C7 counterexample: no parameter combination inside the slider ranges makes
any entry of either field exceed 1 — the claimed possibility never occurs. -/
theorem fields_never_exceed_one :
    ¬ ∃ (v d kL : ℝ), (1 / 10 ≤ v ∧ v ≤ 10) ∧ (1 / 100 ≤ d ∧ d ≤ 2) ∧
      (kL = 1 / 10 ^ 7 ∨ kL = 1 / 10 ^ 9 ∨ kL = 1 / 10 ^ 10) ∧
      ∃ (i : Fin 80) (j : Fin 50), 1 < C_leachate v kL i j ∨ 1 < C_gas d i j := by
  rintro ⟨v, d, kL, ⟨hv1, hv2⟩, ⟨hd1, hd2⟩, hkL, i, j, hbig⟩
  have hk : 0 < kL := by
    rcases hkL with h | h | h <;> rw [h] <;> norm_num
  have hd : 0 < d := by linarith
  have h1 := leachate_lt_one v kL hk i j
  have h2 := gas_lt_one d hd i j
  rcases hbig with h | h <;> linarith

/-- C7 amended: for every positive diffusion rate and liner permeability, every
entry of both fields is strictly below 1 (the fields are bounded above by 1;
no parameter combination produces a value exceeding 1). -/
theorem fields_bounded_by_one (v d kL : ℝ) (hd : 0 < d) (hk : 0 < kL)
    (i : Fin 80) (j : Fin 50) :
    C_leachate v kL i j < 1 ∧ C_gas d i j < 1 :=
  ⟨leachate_lt_one v kL hk i j, gas_lt_one d hd i j⟩

theorem fields_bounded_by_one_witness :
    (0 : ℝ) < 3 / 10 ∧ (0 : ℝ) < 1 / 10 ^ 9 ∧
      (C_leachate 2 (1 / 10 ^ 9) 0 0 < 1 ∧ C_gas (3 / 10) 0 0 < 1) :=
  ⟨by norm_num, by norm_num,
   fields_bounded_by_one 2 (3 / 10) (1 / 10 ^ 9) (by norm_num) (by norm_num) 0 0⟩

/-- C8 counterexample: at distance `x = 20` (an odd multiple of 20) the gas
expression is not zero — `cos(pi*20/20)^2 = cos(pi)^2 = 1`, so the value is
`exp(-d*t/10) > 0` (here with `d = 1`, `t = 1`). -/
theorem gas_nonzero_at_twenty : gasKernel 1 20 1 ≠ 0 := by
  unfold gasKernel
  rw [show Real.pi * 20 / 20 = Real.pi by ring, Real.cos_pi]
  norm_num

/-- C8 amended: the gas expression vanishes exactly at the cosine
zero-crossings, which sit at odd multiples of 10: for every diffusion rate,
every time, and every integer `m`, the value at `x = 10*(2m+1)` is 0. -/
theorem gas_zero_at_odd_multiples_of_ten (d t : ℝ) (m : ℤ) :
    gasKernel d (10 * (2 * (m : ℝ) + 1)) t = 0 := by
  unfold gasKernel
  have hcos : Real.cos (Real.pi * (10 * (2 * (m : ℝ) + 1)) / 20) = 0 := by
    rw [Real.cos_eq_zero_iff]
    exact ⟨m, by ring⟩
  rw [hcos]
  ring
